import Mathlib

/-!
Verification of the Disaster Response platform core components against the
source code: the TTL cache (`server/services/cacheService.js`), the PostGIS
proximity search (`find_nearby_resources` in the SQL migration), the
audit-trail handling in the disaster routes, and center-point resolution in the
resource route.

Conventions of the embedding:
* Timestamps are integers in milliseconds (JavaScript `Date.now()` values).
* Database rows are records; a table is a list of rows.
* Backend failures (network or serialization errors raised by the supabase
  client) are injected explicitly as an `Option String` error-code parameter;
  `none` means the call succeeded.
-/

namespace DisasterResponse

/-! ## CacheService (server/services/cacheService.js)

The `cache` table keyed by `key` with columns `value` and `expires_at`.
A state is a list of `(key, value, expires_at)` rows; lookup by key.
-/

/-- State of the `cache` table: rows of key, value and absolute expiry (ms). -/
abbrev CacheState (α : Type) : Type := List (String × α × Int)

/-- Find the row for a key, as supabase `.select(...).eq(key, key).single()`. -/
def lookupEntry {α : Type} : CacheState α → String → Option (α × Int)
  | [], _ => none
  | (k', v, e) :: rest, k => if k' = k then some (v, e) else lookupEntry rest k

/-- Remove every row for a key, as supabase `.delete().eq(key, key)`. -/
def eraseEntry {α : Type} (st : CacheState α) (k : String) : CacheState α :=
  st.filter (fun row => row.1 != k)

/-- `CacheService.delete(key)`: delete the row for the key from the backend. -/
def cacheDelete {α : Type} (st : CacheState α) (k : String) : CacheState α :=
  eraseEntry st k

/-- `CacheService.set(key, value, ttlMinutes = 60)` at time `now`:
computes `expiresAt = Date.now() + ttlMinutes * 60 * 1000` and upserts the
row, replacing any existing row for the key. -/
def cacheSet {α : Type} (st : CacheState α) (k : String) (v : α) (now : Int)
    (ttlMinutes : Int := 60) : CacheState α :=
  (k, v, now + ttlMinutes * 60 * 1000) :: eraseEntry st k

/-- `CacheService.get(key)` at time `now`: looks the row up; a missing row is
`null`; a row with `new Date(data.expires_at) < new Date()` is deleted and
`null` returned; otherwise the stored value is returned.  The result pairs the
returned value with the backing-store state after the call. -/
def cacheGet {α : Type} (st : CacheState α) (k : String) (now : Int) :
    Option α × CacheState α :=
  match lookupEntry st k with
  | none => (none, st)
  | some (v, e) => if e < now then (none, cacheDelete st k) else (some v, st)

/-- Body of the `try` block of `CacheService.get` with an injected backend
error code: a supabase error whose code is not PGRST116 is thrown; a
PGRST116 error (no row) leaves `data` null, so `null` is returned. -/
def cacheGetTry {α : Type} (st : CacheState α) (k : String) (now : Int)
    (fault : Option String) : Except String (Option α × CacheState α) :=
  match fault with
  | some code => if code = "PGRST116" then .ok (none, st) else .error code
  | none => .ok (cacheGet st k now)

/-- `CacheService.get` including its `catch` clause: a thrown error is logged
and `null` is returned, leaving the store unchanged. -/
def cacheGetRun {α : Type} (st : CacheState α) (k : String) (now : Int)
    (fault : Option String) : Option α × CacheState α :=
  match cacheGetTry st k now fault with
  | .error _ => (none, st)
  | .ok r => r

/-- Body of the `try` block of `CacheService.set`: a supabase error from the
upsert is thrown. -/
def cacheSetTry {α : Type} (st : CacheState α) (k : String) (v : α) (now : Int)
    (ttlMinutes : Int) (fault : Option String) : Except String (CacheState α) :=
  match fault with
  | some code => .error code
  | none => .ok (cacheSet st k v now ttlMinutes)

/-- `CacheService.set` including its `catch` clause: a thrown error is logged
and the call returns normally with the store unchanged. -/
def cacheSetRun {α : Type} (st : CacheState α) (k : String) (v : α) (now : Int)
    (ttlMinutes : Int) (fault : Option String) : CacheState α :=
  match cacheSetTry st k v now ttlMinutes fault with
  | .error _ => st
  | .ok st' => st'

/-- Body of the `try` block of `CacheService.delete`: a supabase error from
the delete is thrown. -/
def cacheDeleteTry {α : Type} (st : CacheState α) (k : String)
    (fault : Option String) : Except String (CacheState α) :=
  match fault with
  | some code => .error code
  | none => .ok (cacheDelete st k)

/-- `CacheService.delete` including its `catch` clause: a thrown error is
logged and the call returns normally with the store unchanged. -/
def cacheDeleteRun {α : Type} (st : CacheState α) (k : String)
    (fault : Option String) : CacheState α :=
  match cacheDeleteTry st k fault with
  | .error _ => st
  | .ok st' => st'

/-! ## find_nearby_resources (supabase/migrations/20250619115926_golden_flame.sql)

The SQL function casts the `geography(POINT, 4326)` columns to `geometry`
before calling `ST_Distance` and `ST_DWithin`, so both operate on the raw
longitude/latitude coordinates as a flat plane: the computed
`distance_meters` is the planar Euclidean distance in coordinate units
(degrees), and `ST_DWithin(a, b, r)` holds exactly when that planar distance
is at most `r` (the bound is inclusive).

The embedding keeps the squared planar distance `distance2` as an exact
rational in each output row; the `distance_meters` column is its square
root, `distanceMeters`.  The `ST_DWithin` filter `dist ≤ r` is embedded as
`0 ≤ r ∧ dist² ≤ r²`, which is equivalent (`sqrt_dist2_le_iff`) since the
planar distance is non-negative.  `ORDER BY distance_meters ASC` names no
tie-break column, so SQL fixes no order among rows of equal distance; the
embedding realizes one admissible execution, a stable sort that leaves
equal-distance rows in table order.  Row columns that the function merely
passes through unchanged (`disaster_id`, `name`, `capacity`, `contact`,
`created_at`, ...) are elided. -/

/-- Squared planar distance between two (longitude, latitude) points, in
squared coordinate units. -/
def dist2 (p c : ℚ × ℚ) : ℚ :=
  (p.1 - c.1) ^ 2 + (p.2 - c.2) ^ 2

/-- A row of the `resources` table (columns that `find_nearby_resources`
reads; `location` is `none` for a NULL geography). -/
structure Resource where
  id : Nat
  status : String
  location : Option (ℚ × ℚ)
  deriving DecidableEq, Repr

/-- A row returned by `find_nearby_resources`: resource columns plus the
squared planar distance (the reported `distance_meters` is its square
root). -/
structure NearbyRow where
  id : Nat
  status : String
  distance2 : ℚ
  deriving DecidableEq, Repr

/-- The `distance_meters` value of an output row: the planar distance,
square root of the stored squared distance. -/
noncomputable def distanceMeters (row : NearbyRow) : ℝ :=
  Real.sqrt (row.distance2 : ℝ)

/-- Comparison used by `ORDER BY distance_meters ASC` (equivalent to
comparing the squared distances, as the square root is monotone). -/
abbrev rowLE (a b : NearbyRow) : Prop :=
  a.distance2 ≤ b.distance2

instance : IsTotal NearbyRow rowLE :=
  ⟨fun a b => le_total a.distance2 b.distance2⟩

instance : IsTrans NearbyRow rowLE :=
  ⟨fun _ _ _ hab hbc => le_trans hab hbc⟩

/-- `find_nearby_resources(search_lat, search_lon, search_radius)`: keeps the
rows with a non-NULL location that are within `search_radius` of the center
(planar `ST_DWithin`, inclusive) and have status "active", computes their
planar distance, and sorts ascending by that distance. -/
def find_nearby_resources (resources : List Resource) (search_lat : ℚ)
    (search_lon : ℚ) (search_radius : ℚ) : List NearbyRow :=
  List.insertionSort rowLE
    (resources.filterMap (fun r =>
      r.location.bind (fun p =>
        if 0 ≤ search_radius ∧ dist2 p (search_lon, search_lat) ≤ search_radius ^ 2
            ∧ r.status = "active"
        then some ⟨r.id, r.status, dist2 p (search_lon, search_lat)⟩
        else none)))

/-- Modelled from the spec: the geodesic (spherical-earth) distance in
meters that the spec says `distance_meters` should report, specialized to
two points on the equator, where the great circle is the equator itself:
the absolute longitude difference in degrees times `π * 6371000 / 180`
(mean earth radius 6,371,000 m).  The source contains no geodesic distance
computation (the SQL casts geography to geometry); this definition exists
only to compare the output of the code against the metric stated in the spec. -/
noncomputable def sphericalEquatorMeters (lon1 lon2 : ℚ) : ℝ :=
  |(lon1 : ℝ) - (lon2 : ℝ)| * Real.pi * 6371000 / 180

/-- The squared planar distance is non-negative. -/
theorem dist2_nonneg (p c : ℚ × ℚ) : 0 ≤ dist2 p c :=
  add_nonneg (sq_nonneg _) (sq_nonneg _)

/-- The planar-distance bound `√d2 ≤ r` coincides with the embedded filter
condition `0 ≤ r ∧ d2 ≤ r²`. -/
theorem sqrt_dist2_le_iff (d2 radius : ℚ) :
    Real.sqrt (d2 : ℝ) ≤ (radius : ℝ) ↔ (0 ≤ radius ∧ d2 ≤ radius ^ 2) := by
  rw [Real.sqrt_le_iff]
  constructor
  · rintro ⟨h1, h2⟩
    refine ⟨by exact_mod_cast h1, ?_⟩
    have : (d2 : ℝ) ≤ ((radius : ℚ) : ℝ) ^ 2 := h2
    exact_mod_cast this
  · rintro ⟨h1, h2⟩
    exact ⟨by exact_mod_cast h1, by exact_mod_cast h2⟩

/-- Characterization of membership in the result of `find_nearby_resources`:
exactly the active, located resources within the (inclusive) radius, with
their planar distance. -/
theorem mem_find_nearby_iff (resources : List Resource) (lat lon radius : ℚ)
    (row : NearbyRow) :
    row ∈ find_nearby_resources resources lat lon radius ↔
      ∃ r ∈ resources, ∃ p, r.location = some p ∧
        0 ≤ radius ∧ dist2 p (lon, lat) ≤ radius ^ 2 ∧ r.status = "active" ∧
        row = ⟨r.id, r.status, dist2 p (lon, lat)⟩ := by
  unfold find_nearby_resources
  rw [(List.perm_insertionSort rowLE _).mem_iff, List.mem_filterMap]
  constructor
  · rintro ⟨r, hr, hval⟩
    rcases hloc : r.location with _ | p
    · rw [hloc] at hval; exact absurd hval (by simp)
    · rw [hloc, Option.some_bind] at hval
      by_cases hcond : 0 ≤ radius ∧ dist2 p (lon, lat) ≤ radius ^ 2 ∧ r.status = "active"
      · rw [if_pos hcond] at hval
        exact ⟨r, hr, p, hloc, hcond.1, hcond.2.1, hcond.2.2,
          (Option.some_inj.mp hval).symm⟩
      · rw [if_neg hcond] at hval; exact absurd hval (by simp)
  · rintro ⟨r, hr, p, hloc, h1, h2, h3, hrow⟩
    refine ⟨r, hr, ?_⟩
    rw [hloc, Option.some_bind, if_pos ⟨h1, h2, h3⟩, hrow]

/-! ## Disaster routes (server/routes/disasters.js)

POST /disasters inserts a row whose `audit_trail` is the one-element array
`[auditEntry]` with action "create"; PUT /disasters/:id first SELECTs the
existing row, then UPDATEs it with
`audit_trail: [...existing.audit_trail, auditEntry]` where the new entry has
action "update".  Request-body fields are optional (`undefined` when
absent), and the update falls back to the existing value via `x || existing.x`.
The Gemini severity analysis is an uninterpreted external result, embedded
as an optional string. -/

/-- The `changes` payload of an audit entry: the four raw body fields, each
possibly absent. -/
structure AuditChanges where
  title : Option String
  location_name : Option String
  description : Option String
  tags : Option (List String)
  deriving DecidableEq, Repr

/-- One element of the `audit_trail` array of a disaster row. -/
structure AuditEntry where
  action : String
  user_id : String
  timestamp : Int
  changes : AuditChanges
  severity_analysis : Option String
  deriving DecidableEq, Repr

/-- A row of the `disasters` table (columns the routes read and write). -/
structure Incident where
  id : Nat
  title : String
  location_name : Option String
  location : Option (ℚ × ℚ)
  description : String
  tags : List String
  owner_id : String
  audit_trail : List AuditEntry
  deriving DecidableEq, Repr

/-- POST /disasters after its validation (`title` and `description` present):
the inserted row, whose `audit_trail` is the single "create" entry built
from the request body. -/
def createDisaster (id : Nat) (title : String) (location_name : Option String)
    (description : String) (tags : Option (List String))
    (latlng : Option (ℚ × ℚ)) (user : String) (t : Int)
    (severity : Option String) : Incident :=
  { id := id
    title := title
    location_name := location_name
    location := latlng
    description := description
    tags := tags.getD []
    owner_id := user
    audit_trail :=
      [⟨"create", user, t, ⟨some title, location_name, some description, tags⟩,
        severity⟩] }

/-- PUT /disasters/:id after its ownership check, applied to the row image
`existing` read by its SELECT: each column falls back to the existing value
when the body field is absent (`x || existing.x`), and `audit_trail` becomes
the read trail with the single "update" entry appended
(`[...existing.audit_trail, auditEntry]`). -/
def updateDisaster (existing : Incident) (title : Option String)
    (location_name : Option String) (description : Option String)
    (tags : Option (List String)) (latlng : Option (ℚ × ℚ)) (user : String)
    (t : Int) (severity : Option String) : Incident :=
  { existing with
    title := title.getD existing.title
    location_name :=
      match location_name with
      | some s => some s
      | none => existing.location_name
    location :=
      match latlng with
      | some q => some q
      | none => existing.location
    description := description.getD existing.description
    tags := tags.getD existing.tags
    audit_trail := existing.audit_trail ++
      [⟨"update", user, t, ⟨title, location_name, description, tags⟩, severity⟩] }

/-! ## GET /disasters/:id/resources (server/routes/resources.js)

The route takes optional `lat`, `lon` query parameters.  When either is
absent it fetches the disaster row with `.single()`.  For a missing row
`.single()` yields a PGRST116 error, `if (disasterError) throw` fires, and
the catch responds 500 "Failed to fetch resources" — the `!disaster` branch
is unreachable.  For an existing row whose `location` is NULL it responds
400 with an error identifying the missing center; otherwise it uses the
coordinates of the disaster.  With a center in hand it calls
`find_nearby_resources`.  The `disasterLocation` argument is `none` when
the disaster row does not exist and `some loc` for a row whose `location`
column is `loc` (possibly NULL).  The sample-resource seeding on an empty
result is an external-collaborator concern and is elided. -/

/-- Outcome of the GET /disasters/:id/resources handler: either an HTTP
error status with its message, or the rows of `find_nearby_resources`. -/
def getDisasterResources (latParam lonParam : Option ℚ)
    (disasterLocation : Option (Option (ℚ × ℚ))) (resources : List Resource)
    (radius : ℚ) : Except (Nat × String) (List NearbyRow) :=
  match latParam, lonParam with
  | some lat, some lon => .ok (find_nearby_resources resources lat lon radius)
  | _, _ =>
    match disasterLocation with
    | some (some (lon, lat)) =>
      .ok (find_nearby_resources resources lat lon radius)
    | some none =>
      .error (400, "Location coordinates required or disaster must have location set")
    | none =>
      .error (500, "Failed to fetch resources")

/-! ## Claim theorems: CacheService -/

/-- C2, counterexample: the claim says an entry whose `expiresAt` is at or
before "now" is a miss, and that a read at wall-clock time exactly `ttl`
after `set` misses.  The code tests `new Date(data.expires_at) < new Date()`
strictly, so after `set("k", 7)` with a 1-minute TTL at time 0, `get("k")`
at time 60000 ms — exactly `ttl` elapsed, `expiresAt` equal to now — still
returns the value 7 and deletes nothing. -/
theorem get_at_exact_expiry_is_hit :
    cacheGet (cacheSet ([] : CacheState Nat) "k" 7 0 1) "k" 60000 =
      (some 7, cacheSet ([] : CacheState Nat) "k" 7 0 1) := by
  decide

/-- C2 (amended): `CacheService.get` treats a stored entry as expired only
when its `expiresAt` is strictly before the current time; such a read
returns `null` and deletes the entry (lazy eviction), while a read at or
before `expiresAt` is a hit.  Consequently after `set(k, v, ttl)` a read
strictly later than `ttl` minutes misses and evicts, and a read at or
before that bound returns `v`. -/
theorem get_expiry_strict_before {α : Type} (st : CacheState α) (k : String)
    (v : α) (t0 ttl now : Int) :
    (t0 + ttl * 60 * 1000 < now →
      cacheGet (cacheSet st k v t0 ttl) k now =
        (none, cacheDelete (cacheSet st k v t0 ttl) k)) ∧
    (now ≤ t0 + ttl * 60 * 1000 →
      cacheGet (cacheSet st k v t0 ttl) k now =
        (some v, cacheSet st k v t0 ttl)) ∧
    (∀ w e, lookupEntry st k = some (w, e) → e < now →
      cacheGet st k now = (none, cacheDelete st k)) := by
  have hl : lookupEntry (cacheSet st k v t0 ttl) k =
      some (v, t0 + ttl * 60 * 1000) := by
    simp [cacheSet, lookupEntry]
  refine ⟨fun h => ?_, fun h => ?_, fun w e hw he => ?_⟩
  · simp only [cacheGet, hl, if_pos h]
  · simp only [cacheGet, hl, if_neg (not_lt.mpr h)]
  · simp only [cacheGet, hw, if_pos he]

/-- C2, witness for the amended theorem: one minute plus one millisecond
after a 1-minute `set`, the read misses and deletes the entry. -/
theorem get_expiry_strict_before_witness :
    cacheGet (cacheSet ([] : CacheState Nat) "k" 7 0 1) "k" 60001 =
      (none, cacheDelete (cacheSet ([] : CacheState Nat) "k" 7 0 1) "k") :=
  (get_expiry_strict_before ([] : CacheState Nat) "k" 7 0 1 60001).1 (by decide)

/-- C7: every backend failure (any supabase error in `get`, `set` or
`delete`) is swallowed at the cache boundary: `get` returns a miss with the
store untouched, and `set` and `delete` return normally leaving the store
unchanged; no operation propagates the error. -/
theorem cache_failures_swallowed {α : Type} (st : CacheState α) (k : String)
    (v : α) (now ttl : Int) (code : String) :
    cacheGetRun st k now (some code) = (none, st) ∧
    cacheSetRun st k v now ttl (some code) = st ∧
    cacheDeleteRun st k (some code) = st := by
  refine ⟨?_, ?_, ?_⟩
  · by_cases hc : code = "PGRST116" <;>
      simp [cacheGetRun, cacheGetTry, hc]
  · simp [cacheSetRun, cacheSetTry]
  · simp [cacheDeleteRun, cacheDeleteTry]

/-- C8: a second `set` for the same key upserts unconditionally: the stored
row holds the second value with expiry equal to the time of the second set
plus its TTL, regardless of the first set; a subsequent `get` returns the second
value whenever it returns anything, never the first. -/
theorem set_overwrites_value_and_expiry {α : Type} (st : CacheState α)
    (k : String) (v1 v2 : α) (t1 ttl1 t2 ttl2 now : Int) :
    lookupEntry (cacheSet (cacheSet st k v1 t1 ttl1) k v2 t2 ttl2) k =
      some (v2, t2 + ttl2 * 60 * 1000) ∧
    (cacheGet (cacheSet (cacheSet st k v1 t1 ttl1) k v2 t2 ttl2) k now).1 =
      (if t2 + ttl2 * 60 * 1000 < now then none else some v2) := by
  have hl : lookupEntry (cacheSet (cacheSet st k v1 t1 ttl1) k v2 t2 ttl2) k =
      some (v2, t2 + ttl2 * 60 * 1000) := by
    simp [cacheSet, lookupEntry]
  refine ⟨hl, ?_⟩
  simp only [cacheGet, hl]
  split <;> rfl

/-- C10: `CacheService.set` called without a TTL argument uses the default
`ttlMinutes = 60`, storing `expires_at = now + 60 minutes` (3,600,000 ms):
the lifetime of the entry is bounded, never infinite. -/
theorem set_default_ttl_60_minutes {α : Type} (st : CacheState α)
    (k : String) (v : α) (now : Int) :
    cacheSet st k v now = cacheSet st k v now 60 ∧
    lookupEntry (cacheSet st k v now) k = some (v, now + 60 * 60 * 1000) :=
  ⟨rfl, by simp [cacheSet, lookupEntry]⟩

/-! ## Claim theorems: find_nearby_resources -/

/-- C1, code-bug evidence: the SQL casts the geography columns to
`geometry`, so `ST_Distance` yields the flat planar distance in coordinate
degrees, not geodesic meters.  For an active resource at longitude 1°,
latitude 0° and a search center at (0°, 0°), the function reports
`distance_meters = 1`, while the geodesic spherical-earth distance between
those points exceeds 100 km — so the reported value is not the geodesic
distance in meters. -/
theorem distance_not_geodesic_meters :
    (find_nearby_resources [⟨1, "active", some (1, 0)⟩] 0 0 10000).map
        distanceMeters = [1] ∧
    100000 < sphericalEquatorMeters 1 0 := by
  constructor
  · have h : find_nearby_resources [⟨1, "active", some (1, 0)⟩] 0 0 10000 =
        [⟨1, "active", 1⟩] := by
      norm_num [find_nearby_resources, List.filterMap_cons, Option.some_bind,
        dist2, List.insertionSort, List.orderedInsert]
    rw [h]
    simp [distanceMeters]
  · have hπ := Real.pi_gt_three
    unfold sphericalEquatorMeters
    push_cast
    rw [show |(1 : ℝ) - 0| = 1 by norm_num]
    nlinarith

/-- C5, counterexample: `ORDER BY distance_meters ASC` has no tie-break
column, so equal-distance rows keep the underlying order in which they are
scanned.  With the resource of id 2 stored before the resource of id 1,
both exactly at squared distance 1 from the center, the output lists id 2
before id 1 — ties are not ordered by resource id. -/
theorem equal_distances_not_ordered_by_id :
    (find_nearby_resources
        [⟨2, "active", some (1, 0)⟩, ⟨1, "active", some (0, 1)⟩] 0 0 10).map
        NearbyRow.id = [2, 1] ∧
    (find_nearby_resources
        [⟨2, "active", some (1, 0)⟩, ⟨1, "active", some (0, 1)⟩] 0 0 10).map
        NearbyRow.distance2 = [1, 1] ∧
    ¬ (2 : Nat) ≤ 1 := by
  refine ⟨?_, ?_, by decide⟩ <;>
    norm_num [find_nearby_resources, List.filterMap_cons, Option.some_bind,
      dist2, List.insertionSort, List.orderedInsert]

/-- C5 (amended): the sequence returned by `find_nearby_resources` is sorted
ascending by `distance_meters`; the relative order of rows with equal
`distance_meters` is unspecified by the query (no tie-break column), so the
output is not id-deterministic among ties. -/
theorem find_nearby_sorted_by_distance (resources : List Resource)
    (lat lon radius : ℚ) :
    List.Sorted (fun a b => distanceMeters a ≤ distanceMeters b)
      (find_nearby_resources resources lat lon radius) := by
  unfold find_nearby_resources
  exact (List.sorted_insertionSort rowLE _).imp
    (fun hab => Real.sqrt_le_sqrt (by exact_mod_cast hab))

/-- C6: every row returned by `find_nearby_resources` has status "active"
and planar distance at most the radius, and the radius bound is inclusive:
an active located resource at distance exactly `radius` is included, while
no returned row has distance `radius + ε` for any positive `ε`. -/
theorem active_filter_and_inclusive_radius (resources : List Resource)
    (lat lon radius : ℚ) (hr : 0 ≤ radius) :
    (∀ row ∈ find_nearby_resources resources lat lon radius,
        row.status = "active" ∧ distanceMeters row ≤ (radius : ℝ)) ∧
    (∀ r ∈ resources, ∀ p, r.location = some p → r.status = "active" →
        Real.sqrt ((dist2 p (lon, lat) : ℚ) : ℝ) = (radius : ℝ) →
        (⟨r.id, r.status, dist2 p (lon, lat)⟩ : NearbyRow) ∈
          find_nearby_resources resources lat lon radius) ∧
    (∀ ε : ℝ, 0 < ε →
        ∀ row ∈ find_nearby_resources resources lat lon radius,
          distanceMeters row ≠ (radius : ℝ) + ε) := by
  have key : ∀ row ∈ find_nearby_resources resources lat lon radius,
      row.status = "active" ∧ distanceMeters row ≤ (radius : ℝ) := by
    intro row hrow
    obtain ⟨r, _, p, _, h1, h2, h3, hrow'⟩ :=
      (mem_find_nearby_iff resources lat lon radius row).mp hrow
    subst hrow'
    exact ⟨h3, (sqrt_dist2_le_iff _ radius).mpr ⟨h1, h2⟩⟩
  refine ⟨key, ?_, ?_⟩
  · intro r hr' p hloc hstat hdist
    obtain ⟨_, h2⟩ := (sqrt_dist2_le_iff (dist2 p (lon, lat)) radius).mp
      (le_of_eq hdist)
    exact (mem_find_nearby_iff resources lat lon radius _).mpr
      ⟨r, hr', p, hloc, hr, h2, hstat, rfl⟩
  · intro ε hε row hrow heq
    have hle := (key row hrow).2
    rw [heq] at hle
    linarith

/-- C6, witness: an active resource at (3°, 4°) lies at planar distance
exactly 5 from the center (0°, 0°); with radius 5 it is included in the
result. -/
theorem active_filter_and_inclusive_radius_witness :
    (⟨1, "active", dist2 (3, 4) (0, 0)⟩ : NearbyRow) ∈
      find_nearby_resources [⟨1, "active", some (3, 4)⟩] 0 0 5 :=
  (active_filter_and_inclusive_radius [⟨1, "active", some (3, 4)⟩] 0 0 5
      (by norm_num)).2.1
    ⟨1, "active", some (3, 4)⟩ (by simp) (3, 4) rfl rfl
    (by
      rw [show ((dist2 (3, 4) (0, 0) : ℚ) : ℝ) = (5 : ℝ) ^ 2 by
        norm_num [dist2]]
      rw [Real.sqrt_sq (by norm_num : (0 : ℝ) ≤ 5)]
      norm_num)

/-! ## Claim theorems: audit trail -/

/-- C3: a successful create initializes the audit trail with exactly one
"create" entry, and a successful update makes the new trail equal to the
old trail with exactly one "update" entry appended — every previously
appended entry is unchanged in content and position (the old trail is an
initial segment of the new one), the length grows by exactly one, and the one new
entry has action "update". -/
theorem mutation_appends_one_audit_entry (id : Nat) (title : String)
    (ln : Option String) (desc : String) (tags : Option (List String))
    (loc : Option (ℚ × ℚ)) (user : String) (t : Int) (sev : Option String)
    (existing : Incident) (title2 ln2 desc2 : Option String)
    (tags2 : Option (List String)) (loc2 : Option (ℚ × ℚ)) (user2 : String)
    (t2 : Int) (sev2 : Option String) :
    (createDisaster id title ln desc tags loc user t sev).audit_trail.length
        = 1 ∧
    (createDisaster id title ln desc tags loc user t sev).audit_trail.map
        AuditEntry.action = ["create"] ∧
    (updateDisaster existing title2 ln2 desc2 tags2 loc2 user2 t2
        sev2).audit_trail.length = existing.audit_trail.length + 1 ∧
    (updateDisaster existing title2 ln2 desc2 tags2 loc2 user2 t2
        sev2).audit_trail.take existing.audit_trail.length
        = existing.audit_trail ∧
    ((updateDisaster existing title2 ln2 desc2 tags2 loc2 user2 t2
        sev2).audit_trail.drop existing.audit_trail.length).map
        AuditEntry.action = ["update"] := by
  refine ⟨rfl, rfl, ?_, ?_, ?_⟩ <;> simp [updateDisaster]

/-- C4, code-bug evidence: PUT /disasters/:id writes
`audit_trail: [...existing.audit_trail, auditEntry]` computed from the row
image its own SELECT read, a read-whole-array-then-write-whole-array
update.  When two PUT handlers for the same incident (users `userB` and
`userC`) both run their SELECT against the state left by the create (trail
length 1) before either UPDATE executes, each writes a two-entry trail and
the second write overwrites the first: after three successful mutations
(one create and two concurrent updates) the final trail — the second
image written by the second writer, `updateDisaster db0 ... "userC" ...` —
has length 2, not 3, and the entry appended by the successful update of user
`userB` is absent from it. -/
theorem concurrent_updates_lose_audit_entry :
    (updateDisaster
        (createDisaster 1 "Flood" none "desc" none none "userA" 0 none)
        (some "Flood C") none none none none "userC" 11 none).audit_trail.length
      = 2 ∧
    (⟨"update", "userB", 10, ⟨some "Flood B", none, none, none⟩, none⟩ :
        AuditEntry) ∈
      (updateDisaster
        (createDisaster 1 "Flood" none "desc" none none "userA" 0 none)
        (some "Flood B") none none none none "userB" 10 none).audit_trail ∧
    (⟨"update", "userB", 10, ⟨some "Flood B", none, none, none⟩, none⟩ :
        AuditEntry) ∉
      (updateDisaster
        (createDisaster 1 "Flood" none "desc" none none "userA" 0 none)
        (some "Flood C") none none none none "userC" 11 none).audit_trail := by
  refine ⟨rfl, ?_, ?_⟩ <;> simp [updateDisaster, createDisaster]

/-! ## Claim theorems: resource route center resolution -/

/-- C9: when the caller supplies no center coordinates and the referenced
disaster exists but has no recorded location, the handler responds 400 with
an error naming the missing center instead of returning results. -/
theorem missing_center_rejected (latParam lonParam : Option ℚ)
    (resources : List Resource) (radius : ℚ) (hlat : latParam = none) :
    getDisasterResources latParam lonParam (some none) resources radius =
      .error (400,
        "Location coordinates required or disaster must have location set") := by
  subst hlat
  cases lonParam <;> rfl

/-- C9, witness: with no query coordinates at all and a disaster whose
`location` is NULL, the route returns the 400 error. -/
theorem missing_center_rejected_witness :
    getDisasterResources none none (some none) [] 10 =
      .error (400,
        "Location coordinates required or disaster must have location set") :=
  missing_center_rejected none none [] 10 rfl

end DisasterResponse
